import Mathlib

/-
Verification of the rdma-burst transfer orchestrator, process supervisor and
log-based progress monitor against their natural-language specification.

The Go source is shallowly embedded: pure computations become Lean functions,
stateful methods become explicit state-passing functions, `error` returns
become `Except String`, and machine integers (Go int64) are modelled as `Int`
with explicit two's-complement wrapping where overflow is possible.  Go
float64 values that only ever hold exactly-representable decimals in the
properties under study are modelled as `ℚ`.  Wall-clock times are modelled as
integer nanosecond counts supplied as parameters.  Filesystem and OS effects
(directory creation, process spawn/kill/wait outcomes, file existence) are
modelled as explicit boolean oracles passed to the embedded functions.
-/

namespace RdmaBurst

/-! ## Basic string machinery shared by the embeddings -/

/-- Whitespace set of Go's `unicode.IsSpace` restricted to Latin-1:
space, tab, newline, vertical tab, form feed, carriage return, NEL, NBSP.
Used by `strings.TrimSpace`. -/
def goIsSpace (c : Char) : Bool :=
  c = ' ' || c = '\t' || c = '\n' || c = Char.ofNat 11 || c = Char.ofNat 12 ||
  c = '\r' || c = Char.ofNat 0x85 || c = Char.ofNat 0xA0

/-- Embedding of Go `strings.TrimSpace`. -/
def trimSpace (s : String) : String :=
  String.mk (((s.data.dropWhile goIsSpace).reverse.dropWhile goIsSpace).reverse)

/-- ASCII lower-casing of one character (the case folding the regexes need). -/
def lowerChar (c : Char) : Char :=
  if 'A' ≤ c ∧ c ≤ 'Z' then Char.ofNat (c.toNat + 32) else c

/-- ASCII upper-casing of one character (Go `strings.ToUpper` on ASCII data). -/
def upperChar (c : Char) : Char :=
  if 'a' ≤ c ∧ c ≤ 'z' then Char.ofNat (c.toNat - 32) else c

/-- Lower-cased character list of a string. -/
def lowerList (s : String) : List Char := s.data.map lowerChar

/-- Embedding of Go `strings.ToUpper` (the inputs in this code base are ASCII). -/
def goToUpper (s : String) : String := String.mk (s.data.map upperChar)

/-- Does `needle` occur as a contiguous sublist of `hay`? -/
def containsSub (needle : List Char) : List Char → Bool
  | [] => needle.isPrefixOf ([] : List Char)
  | c :: cs => needle.isPrefixOf (c :: cs) || containsSub needle cs

/-- Case-insensitive substring test: the semantics of an unanchored
case-insensitive regex match of the literal word `kw` against `line`. -/
def containsCI (line kw : String) : Bool :=
  containsSub (lowerList kw) (lowerList line)

/-! ## Data model: TransferConfig (src/internal/wrapper, second file)

Mode, direction and process/transfer states are string-typed in the Go source
(`type TransferMode string` etc.), so they are embedded as `String` with the
same constants. -/

def modeHugepages : String := "hugepages"
def modeTmpfs : String := "tmpfs"
def modeFilesystem : String := "filesystem"
def directionPut : String := "put"
def directionGet : String := "get"

/-- Embedding of `wrapper.TransferConfig`. -/
structure TransferConfig where
  device : String := ""
  directory : String := ""
  mode : String := ""
  direction : String := ""
  filename : String := ""
  serverAddress : String := ""
  chunkSize : Int := 0
  logFile : String := ""
  noHuge : Bool := false
  mMan : Bool := false
deriving DecidableEq

/-! ## Command-line argument construction (RtranfileWrapper) -/

/-- Embedding of Go `path/filepath.Base` (Unix separator). -/
def filepathBase (path : String) : String :=
  if path = "" then "."
  else
    let stripped := path.data.reverse.dropWhile (fun c => c = '/')
    let base := stripped.takeWhile (fun c => c ≠ '/')
    if base.isEmpty then "/" else String.mk base.reverse

/-- Embedding of `RtranfileWrapper.addModeSpecificArgs`: appends the
mode-specific flags to an argument list.  Note that for the hugepages and
tmpfs modes the `noHuge`/`mMan` fields of the configuration are ignored and
both flags are appended unconditionally; only the filesystem mode consults
the configuration (and only on the client side). -/
def addModeSpecificArgs (args : List String) (config : TransferConfig) : List String :=
  if config.mode = modeHugepages then
    args ++ ["--nohuge", "--mman"]
  else if config.mode = modeTmpfs then
    args ++ ["--nohuge", "--mman"]
  else if config.mode = modeFilesystem then
    if config.direction = "" then
      args ++ ["--nohuge"]
    else
      (if config.noHuge then args ++ ["--nohuge"] else args) ++
        (if config.mMan then ["--mman"] else [])
  else args

/-- Embedding of `RtranfileWrapper.buildServerArgs` (listener invocation). -/
def buildServerArgs (config : TransferConfig) : List String :=
  addModeSpecificArgs
    ["-d", config.device, "--dir", config.directory, "-l", "0",
     "--logfile", config.logFile] config

/-- Embedding of `RtranfileWrapper.buildClientArgs` (transfer invocation). -/
def buildClientArgs (config : TransferConfig) : List String :=
  let args :=
    addModeSpecificArgs
      ["-d", config.device, "-c", config.serverAddress, "--dir", config.directory,
       "--logfile", config.logFile, "-m", "4096"] config
  let filename := filepathBase config.filename
  if config.direction = directionPut then args ++ ["--put", filename]
  else args ++ ["--get", filename]

/-- Embedding of `RtranfileWrapper.ValidateConfig`. -/
def ValidateConfig (config : TransferConfig) : Except String Unit :=
  if config.device = "" then .error ("RDMA 设备不能为空")
  else if config.directory = "" then .error ("传输目录不能为空")
  else if config.logFile = "" then .error ("日志文件路径不能为空")
  else if ¬(config.mode = modeHugepages ∨ config.mode = modeTmpfs ∨
            config.mode = modeFilesystem) then
    .error ("不支持的传输模式: " ++ config.mode)
  else if config.direction ≠ "" then
    if ¬(config.direction = directionPut ∨ config.direction = directionGet) then
      .error ("不支持的传输方向: " ++ config.direction)
    else if config.direction = directionPut ∨ config.direction = directionGet then
      if config.serverAddress = "" then .error ("客户端传输需要指定服务端地址")
      else if config.filename = "" then .error ("客户端传输需要指定文件名")
      else .ok ()
    else .ok ()
  else .ok ()

/-- Boolean success test for `Except`. -/
def exceptOk {ε α : Type} : Except ε α → Bool
  | .ok _ => true
  | .error _ => false

instance {ε α : Type} [DecidableEq ε] [DecidableEq α] : DecidableEq (Except ε α) := fun a b =>
  match a, b with
  | .ok x, .ok y => if h : x = y then .isTrue (by rw [h]) else .isFalse (by simp [h])
  | .ok _, .error _ => .isFalse (by simp)
  | .error _, .ok _ => .isFalse (by simp)
  | .error e, .error f => if h : e = f then .isTrue (by rw [h]) else .isFalse (by simp [h])

/-! ## Orchestrator data model (src/unnamed/part_003, package transfer) -/

/-- Embedding of `models.TransferRequest` (fields the orchestrator reads). -/
structure TransferRequest where
  filename : String
  mode : String
  direction : String
  serverIP : String := ""
deriving DecidableEq

/-- Base directories for the three modes from `models.TransferSettings.Modes`. -/
structure ModeDirs where
  hugepagesBaseDir : String
  tmpfsBaseDir : String
  filesystemBaseDir : String
deriving DecidableEq

/-- Embedding of `models.TransferSettings` (fields the orchestrator reads). -/
structure TransferSettings where
  device : String
  chunkSize : Int
  serverAddress : String := ""
  maxConcurrentTransfers : Int := 0
  modes : ModeDirs
deriving DecidableEq

/-- Embedding of the package-level helper `getFileName` in part_003: returns
the substring after the last slash, except when the path ends in a slash or
has no slash at all, in which case the whole string is returned. -/
def getFileName (fp : String) : String :=
  let r := fp.data.reverse
  match r.findIdx? (fun c => c = '/') with
  | none => fp
  | some ridx => if 0 < ridx then String.mk ((r.take ridx).reverse) else fp

/-- Embedding of the package-level helper `getFileDirectory` in part_003:
for an absolute path with a non-leading last slash, the prefix before that
slash; otherwise the current directory. -/
def getFileDirectory (filename : String) : String :=
  if filename.data.head? = some '/' then
    match filename.data.reverse.findIdx? (fun c => c = '/') with
    | none => "."
    | some ridx =>
      let lastSlash := filename.data.length - 1 - ridx
      if 0 < lastSlash then String.mk (filename.data.take lastSlash) else "."
  else "."

/-- Log-file path built by `buildTransferConfig` for the transfer side; the
wall-clock timestamp component is a parameter of the embedding. -/
def transferLogFile (direction timestamp : String) : String :=
  "/var/log/rtrans/rtrans_" ++ direction ++ "_" ++ timestamp ++ ".log"

/-- Embedding of `TransferService.buildTransferConfig`: resolves the
per-mode directory and the `noHuge`/`mMan` flag pair from the request mode
and direction, the filename (path stripped) and the peer address. -/
def buildTransferConfig (req : TransferRequest) (serverConfig : TransferSettings)
    (timestamp : String) : Except String TransferConfig :=
  let base : TransferConfig := { device := serverConfig.device, chunkSize := serverConfig.chunkSize }
  let isClient : Bool := req.direction = directionPut ∨ req.direction = directionGet
  match
    (if req.mode = modeHugepages then
      -- hugepages: client side disables large pages and enables mman,
      -- listener side enables large pages and disables mman
      .ok { base with mode := modeHugepages,
                      directory := serverConfig.modes.hugepagesBaseDir,
                      noHuge := (if isClient then true else false),
                      mMan := (if isClient then true else false) }
    else if req.mode = modeTmpfs then
      -- tmpfs: client side keeps large pages on and mman on,
      -- listener side disables large pages and keeps mman on
      .ok { base with mode := modeTmpfs,
                      directory := serverConfig.modes.tmpfsBaseDir,
                      noHuge := (if isClient then false else true),
                      mMan := true }
    else if req.mode = modeFilesystem then
      -- filesystem: for uploads the working directory is the source file's
      -- own directory, for downloads the configured base directory
      .ok { base with mode := modeFilesystem,
                      directory :=
                        (if req.direction = directionPut then getFileDirectory req.filename
                         else serverConfig.modes.filesystemBaseDir),
                      noHuge := (if isClient then false else true),
                      mMan := false }
    else (.error ("不支持的传输模式: " ++ req.mode) : Except String TransferConfig)) with
  | .error e => .error e
  | .ok cfg =>
    match
      (if req.direction = directionPut then
        .ok { cfg with direction := directionPut, filename := getFileName req.filename }
      else if req.direction = directionGet then
        .ok { cfg with direction := directionGet, filename := getFileName req.filename }
      else (.error ("不支持的传输方向: " ++ req.direction) : Except String TransferConfig)) with
    | .error e => .error e
    | .ok cfg2 =>
      let cfg3 := { cfg2 with
        serverAddress :=
          (if serverConfig.serverAddress ≠ "" then serverConfig.serverAddress else "localhost"),
        logFile := transferLogFile req.direction timestamp }
      .ok cfg3

/-! ## Listener-side configuration (ensureServerProcessStarted) -/

/-- Base directory the listener uses for a mode: the defaults when the
service was built without a `TransferSettings`, the configured base
directories otherwise; `none` for an unsupported mode string. -/
def listenerBaseDir (mode : String) (dirs : Option ModeDirs) : Option String :=
  match dirs with
  | none =>
    if mode = modeHugepages then some ("/dev/hugepages/dir")
    else if mode = modeTmpfs then some ("/dev/shm/dir")
    else if mode = modeFilesystem then some ("/var/lib/rtrans/files")
    else none
  | some d =>
    if mode = modeHugepages then some d.hugepagesBaseDir
    else if mode = modeTmpfs then some d.tmpfsBaseDir
    else if mode = modeFilesystem then some d.filesystemBaseDir
    else none

/-- Listener-side `noHuge`/`mMan` configuration fields chosen by
`ensureServerProcessStarted` (identical in the defaulted and configured
branches of the source). -/
def listenerFlags (mode : String) : Bool × Bool :=
  if mode = modeHugepages then (false, false)
  else if mode = modeTmpfs then (true, true)
  else (false, false)

/-- Listener-side `TransferConfig` assembled by `ensureServerProcessStarted`
before validation and process start. -/
def listenerServerConfig (config : TransferConfig) (baseDir : String) : TransferConfig :=
  { device := config.device
    directory := baseDir
    mode := config.mode
    logFile := "/var/log/rtrans/rtranfile_server_" ++ config.mode ++ ".log"
    noHuge := (listenerFlags config.mode).1
    mMan := (listenerFlags config.mode).2
    direction := ""
    filename := "" }

/-- Full command line handed to the external executable for the listener of
a mode, as `ensureServerProcessStarted` hands it to `StartServer`;
`none` when the mode is not one of the three supported modes. -/
def listenerCommandArgs (device mode : String) (dirs : Option ModeDirs) : Option (List String) :=
  match listenerBaseDir mode dirs with
  | none => none
  | some baseDir =>
    some (buildServerArgs (listenerServerConfig { device := device, mode := mode } baseDir))

/-- Full command line handed to the external executable for the transfer
side, as `StartTransfer` would hand it to `StartClient` after
`buildTransferConfig`. -/
def transferCommandArgs (req : TransferRequest) (serverConfig : TransferSettings)
    (timestamp : String) : Except String (List String) :=
  match buildTransferConfig req serverConfig timestamp with
  | .error e => .error e
  | .ok cfg => .ok (buildClientArgs cfg)

/-- Flag pair (disable-large-pages, use-mmap) actually present in a built
argument list: a flag is `true` exactly when `--nohuge` respectively
`--mman` occurs in the list. -/
def argFlagPair (args : List String) : Bool × Bool :=
  (args.contains ("--nohuge"), args.contains ("--mman"))

/-- Modelled from the spec: the listener column of the mode → role → flag
table in §4.3 (disable-large-pages / use-mmap). -/
def specListenerFlags (mode : String) : Option (Bool × Bool) :=
  if mode = modeHugepages then some (false, false)
  else if mode = modeTmpfs then some (true, true)
  else if mode = modeFilesystem then some (true, false)
  else none

/-- Modelled from the spec: the transfer-side column of the mode → role →
flag table in §4.3 (disable-large-pages / use-mmap). -/
def specTransferFlags (mode : String) : Option (Bool × Bool) :=
  if mode = modeHugepages then some (true, true)
  else if mode = modeTmpfs then some (false, true)
  else if mode = modeFilesystem then some (false, false)
  else none

/-- Concrete base directories used for evaluating the flag table. -/
def sampleDirs : ModeDirs :=
  { hugepagesBaseDir := "/dev/hugepages/dir"
    tmpfsBaseDir := "/dev/shm/dir"
    filesystemBaseDir := "/var/lib/rtrans/files" }

/-- Concrete settings used for evaluating the flag table. -/
def sampleSettings : TransferSettings :=
  { device := "mlx5_0", chunkSize := 4096, serverAddress := "10.0.0.1", modes := sampleDirs }

/-- Concrete request for a given mode and direction. -/
def sampleReq (mode direction : String) : TransferRequest :=
  { filename := "/data/f.bin", mode := mode, direction := direction }

/-- Transfer-side flag pair built by the code for a mode and direction under
the sample settings. -/
def builtTransferPair (mode direction : String) : Except String (Bool × Bool) :=
  (transferCommandArgs (sampleReq mode direction) sampleSettings ("20250101_000000")).map argFlagPair

/-! ## Log parser (src/internal/wrapper/monitor.go)

Transfer statuses are string-typed in the source (`type TransferStatus
string`); the same constants are used here. -/

def statusPending : String := "pending"
def statusStarting : String := "starting"
def statusInProgress : String := "in_progress"
def statusCompleted : String := "completed"
def statusFailed : String := "failed"
def statusCancelled : String := "cancelled"

/-- Embedding of `wrapper.ProgressInfo` (the wall-clock fields `StartTime`,
`LastUpdateTime`, and the pull-computed `ElapsedTime`/`TransferRate`/
`EstimatedTime` are outside the scope of the parsing claims and omitted;
`ProgressPercent`, a float64 that only ever holds parsed decimal literals in
the claims considered, is modelled as `ℚ`). -/
structure ProgressInfo where
  status : String := ""
  bytesTransferred : Int := 0
  totalBytes : Int := 0
  progressPercent : ℚ := 0
  error : String := ""
deriving DecidableEq

/-- Match of the error regex `(?i)(error|failed|failure|exception)`:
an unanchored case-insensitive substring match of one of the four words. -/
def errorRegexMatches (line : String) : Bool :=
  containsCI line ("error") || containsCI line ("failed") ||
  containsCI line ("failure") || containsCI line ("exception")

/-- Match of the completion regex `(?i)(completed|finished|success)`. -/
def completeRegexMatches (line : String) : Bool :=
  containsCI line ("completed") || containsCI line ("finished") ||
  containsCI line ("success")

/-- Whitespace class `\s` of the progress regex (RE2: `[\t\n\f\r ]`). -/
def reSpace (c : Char) : Bool :=
  c = '\t' || c = '\n' || c = Char.ofNat 12 || c = '\r' || c = ' '

/-- Decimal digit class `\d`. -/
def isDigitChar (c : Char) : Bool := '0' ≤ c ∧ c ≤ '9'

/-- Consume `\s+` (at least one whitespace character), greedily. -/
def dropWs1 (l : List Char) : Option (List Char) :=
  let ws := l.takeWhile reSpace
  if ws.isEmpty then none else some (l.drop ws.length)

/-- Consume `\s*`, greedily. -/
def dropWs (l : List Char) : List Char := l.dropWhile reSpace

/-- Consume `(\d+)`, greedily; returns the captured digits and the rest. -/
def takeDigits (l : List Char) : Option (List Char × List Char) :=
  let ds := l.takeWhile isDigitChar
  if ds.isEmpty then none else some (ds, l.drop ds.length)

/-- Consume the unit alternation `(MB|GB|KB|B)` on case-folded input, in the
alternation order of the regex; returns the captured unit (folded) and the
rest. -/
def takeUnit (l : List Char) : Option (String × List Char) :=
  if ['m', 'b'].isPrefixOf l then some ("mb", l.drop 2)
  else if ['g', 'b'].isPrefixOf l then some ("gb", l.drop 2)
  else if ['k', 'b'].isPrefixOf l then some ("kb", l.drop 2)
  else if ['b'].isPrefixOf l then some ("b", l.drop 1)
  else none

/-- Consume `([\d.]+)`, greedily. -/
def takePercentChars (l : List Char) : Option (List Char × List Char) :=
  let ds := l.takeWhile (fun c => isDigitChar c || c = '.')
  if ds.isEmpty then none else some (ds, l.drop ds.length)

/-- Attempt the progress pattern
`transferred\s+(\d+)\s*(MB|GB|KB|B)\s+of\s+(\d+)\s*(MB|GB|KB|B)\s*\(([\d.]+)%\)`
anchored at the start of the (case-folded) character list; returns the five
captured groups. -/
def matchProgressAt (l : List Char) : Option (String × String × String × String × String) :=
  if ("transferred").data.isPrefixOf l then
    (dropWs1 (l.drop 11)).bind fun l1 =>
    (takeDigits l1).bind fun p1 =>
    (takeUnit (dropWs p1.2)).bind fun u1 =>
    (dropWs1 u1.2).bind fun l2 =>
    (if ("of").data.isPrefixOf l2 then
      (dropWs1 (l2.drop 2)).bind fun l3 =>
      (takeDigits l3).bind fun p2 =>
      (takeUnit (dropWs p2.2)).bind fun u2 =>
      (let l4 := dropWs u2.2
       if l4.head? = some '(' then
         (takePercentChars (l4.drop 1)).bind fun pc =>
         (if pc.2.head? = some '%' ∧ (pc.2.drop 1).head? = some ')' then
           some (String.mk p1.1, u1.1, String.mk p2.1, u2.1, String.mk pc.1)
         else none)
       else none)
    else none)
  else none

/-- Leftmost match of the progress regex against a case-folded character
list: the first position at which the anchored pattern succeeds. -/
def findProgressMatch : List Char → Option (String × String × String × String × String)
  | [] => matchProgressAt []
  | c :: cs =>
    match matchProgressAt (c :: cs) with
    | some r => some r
    | none => findProgressMatch cs

/-- Numeric value of a digit string. -/
def digitsToNat (l : List Char) : Nat :=
  l.foldl (fun a c => a * 10 + (c.toNat - 48)) 0

/-- Embedding of Go `strconv.ParseInt(s, 10, 64)` on a `\d+` capture:
fails (with `ErrRange`) beyond the int64 maximum. -/
def parseInt64 (s : String) : Option Int :=
  let n := digitsToNat s.data
  if n ≤ 9223372036854775807 then some (Int.ofNat n) else none

/-- Syntactic stage of Go `strconv.ParseFloat` on a `[\d.]+` capture:
accepts at most one dot and at least one digit, and returns the integer
part value, the fractional part value and the fractional digit count. -/
def parseFloatParts (s : String) : Option (Nat × Nat × Nat) :=
  let l := s.data
  if (l.filter (fun c => c = '.')).length ≤ 1 ∧ 0 < (l.filter isDigitChar).length then
    let ipart := l.takeWhile (fun c => c ≠ '.')
    let fpart := (l.dropWhile (fun c => c ≠ '.')).drop 1
    some (digitsToNat ipart, digitsToNat fpart, fpart.length)
  else none

/-- Embedding of Go `strconv.ParseFloat` on a `[\d.]+` capture; the value is
exact (float64 rounding is irrelevant for the decimal literals in the
claims, which are representable). -/
def parseFloatQ (s : String) : Option ℚ :=
  (parseFloatParts s).map fun p => (p.1 : ℚ) + (p.2.1 : ℚ) / ((10 : ℚ) ^ p.2.2)

/-- Two's-complement wrap of an integer into the int64 range, the semantics
of Go int64 multiplication. -/
def wrap64 (n : Int) : Int := (n + 2 ^ 63) % 2 ^ 64 - 2 ^ 63

/-- Embedding of `LogParser.convertToBytes`: power-of-1024 unit conversion
after upper-casing the unit, with int64 arithmetic. -/
def convertToBytes (value : Int) (unit : String) : Int :=
  if goToUpper unit = "GB" then wrap64 (wrap64 (wrap64 (value * 1024) * 1024) * 1024)
  else if goToUpper unit = "MB" then wrap64 (wrap64 (value * 1024) * 1024)
  else if goToUpper unit = "KB" then wrap64 (value * 1024)
  else if goToUpper unit = "B" then value
  else value

/-- Embedding of `LogParser.ParseLine`: classifies a log line in priority
order error → completion → progress; unmatched lines yield `none`; numeric
parse failures yield `Except.error`. -/
def ParseLine (line : String) : Except String (Option ProgressInfo) :=
  if errorRegexMatches line then
    .ok (some { status := statusFailed, error := trimSpace line })
  else if completeRegexMatches line then
    .ok (some { status := statusCompleted, progressPercent := 100 })
  else
    match findProgressMatch (lowerList line) with
    | none => .ok none
    | some (d1, u1, d2, u2, p) =>
      match parseInt64 d1 with
      | none => .error ("解析已传输字节数失败")
      | some transferred =>
        match parseInt64 d2 with
        | none => .error ("解析总字节数失败")
        | some total =>
          match parseFloatQ p with
          | none => .error ("解析进度百分比失败")
          | some percent =>
            .ok (some { status := statusInProgress
                        bytesTransferred := convertToBytes transferred u1
                        totalBytes := convertToBytes total u2
                        progressPercent := percent })

/-! ## Monitor worker start-up (monitorLogFile, src/internal/wrapper/monitor.go)

The wait-for-creation loop at the top of `monitorLogFile` is embedded over an
explicit timeline: `existsAt n` tells whether the log file exists at polling
tick `n` (one tick = one 100ms sleep). -/

/-- Outcome of the head of the polling worker: either the stop signal won,
or the worker failed before scanning, or it reached the scan loop (having
seeked to end-of-file). -/
inductive MonitorStartOutcome where
  | stoppedEarly
  | failed (err : String)
  | scanning
deriving DecidableEq

/-- Embedding of the wait-for-creation loop of `monitorLogFile` as written:
the `break` that follows the `select` statement is unconditional, so the
loop performs exactly one existence check (sleeping one tick when the check
fails) and then falls through to `os.Open`.  Returns the tick at which the
open is attempted, or `none` when the stop signal was already pending. -/
def logWaitTicks (stopPending : Bool) (existsAt : Nat → Bool) : Option Nat :=
  if stopPending then none
  else if existsAt 0 then some 0 else some 1

/-- Embedding of the head of `monitorLogFile`, up to entering the scan loop:
wait (as written), open the file, seek to end-of-file.  `seekOk` is the
oracle for the seek syscall. -/
def monitorLogFileStart (stopPending : Bool) (existsAt : Nat → Bool)
    (seekOk : Bool) : MonitorStartOutcome :=
  match logWaitTicks stopPending existsAt with
  | none => .stoppedEarly
  | some t =>
    if existsAt t then
      if seekOk then .scanning
      else .failed ("定位日志文件失败")
    else .failed ("打开日志文件失败")

/-! ## Transfer service state and StartTransfer (src/unnamed/part_003) -/

/-- First-match lookup in an association list (a Go map whose key order is
irrelevant for the operations modelled here). -/
def connLookup : List (String × Int) → String → Option Int
  | [], _ => none
  | (k, t) :: rest, key => if k = key then some t else connLookup rest key

/-- Map assignment `m[key] = t`: replace the binding if present, else add it. -/
def connUpsert : List (String × Int) → String → Int → List (String × Int)
  | [], key, t => [(key, t)]
  | (k, t0) :: rest, key, t =>
    if k = key then (k, t) :: rest else (k, t0) :: connUpsert rest key t

/-- Embedding of the mutable `TransferService` state touched by
`StartTransfer`: active task ids, append-only history (ids), the
concurrency bound, the single-flight switches, and the connection-key
last-used map (times in nanoseconds). -/
structure ServiceState where
  activeTasks : List String := []
  taskHistory : List String := []
  maxConcurrent : Int := 0
  singleTransfer : Bool := true
  requireReconnect : Bool := true
  activeConnections : List (String × Int) := []
deriving DecidableEq

/-- Embedding of `getConnectionKeyWithConfig`: a fixed marker plus the
request direction only. -/
def getConnectionKeyWithConfig (req : TransferRequest) : String :=
  "default_" ++ req.direction

/-- Embedding of `isConnectionActive`: the key was used within the last 10
seconds (times in nanoseconds). -/
def isConnectionActive (conns : List (String × Int)) (key : String) (now : Int) : Bool :=
  match connLookup conns key with
  | none => false
  | some lastActive => now - lastActive < 10 * 1000000000

/-- Error message of the hand-off step for a put/get direction. -/
def errClientOnServer : String :=
  "服务端模式下不能执行客户端传输命令。客户端传输应该在客户端机器上执行"

/-- Error message of the hand-off step for any other direction. -/
def errListenerUnsupported : String := "服务端监听模式暂不支持"

/-- Admission error message of the single-flight check. -/
def errReconnectRequired : String := "需要重新建立连接才能开始新的传输"

/-- Embedding of `TransferService.startTransferTask`: marks the task started,
ensures the target directory for downloads (oracle `ensureDirOk`), starts the
monitor (oracle `monitorOk`), then rejects both the client directions and the
listener direction.  Returns the task status after the call together with the
error. -/
def startTransferTask (config : TransferConfig) (ensureDirOk monitorOk : Bool) :
    String × Except String Unit :=
  if config.direction = directionGet ∧ ¬ensureDirOk then
    (statusFailed, .error ("创建目标目录失败"))
  else if ¬monitorOk then
    (statusFailed, .error ("启动监控失败"))
  else if config.direction = directionPut ∨ config.direction = directionGet then
    (statusFailed, .error errClientOnServer)
  else
    (statusFailed, .error errListenerUnsupported)

/-- Embedding of `TransferService.StartTransfer`: concurrency admission,
transfer-interval check (a no-op in the source), single-flight admission,
configuration build and validation, hand-off to `startTransferTask`, and —
on the success continuation — registration of the task and of the
connection-key timestamp.  `now` is the wall clock in nanoseconds,
`timestamp`/`newTaskId` stand for the generated log-file timestamp and task
id. -/
def StartTransfer (s : ServiceState) (req : TransferRequest)
    (serverConfig : TransferSettings) (now : Int) (timestamp newTaskId : String)
    (ensureDirOk monitorOk : Bool) : ServiceState × Except String String :=
  if (s.activeTasks.length : Int) ≥ s.maxConcurrent then
    (s, .error ("已达到最大并发传输限制 (" ++ toString s.maxConcurrent ++ ")"))
  else if s.singleTransfer ∧ s.requireReconnect ∧
      isConnectionActive s.activeConnections (getConnectionKeyWithConfig req) now then
    (s, .error errReconnectRequired)
  else
    match buildTransferConfig req serverConfig timestamp with
    | .error e => (s, .error e)
    | .ok cfg =>
      match ValidateConfig cfg with
      | .error e => (s, .error ("配置验证失败: " ++ e))
      | .ok _ =>
        match startTransferTask cfg ensureDirOk monitorOk with
        | (_, .error e) => (s, .error e)
        | (_, .ok _) =>
          ({ s with
              activeTasks := s.activeTasks ++ [newTaskId]
              taskHistory := s.taskHistory ++ [newTaskId]
              activeConnections :=
                (if s.singleTransfer then
                  connUpsert s.activeConnections (getConnectionKeyWithConfig req) now
                 else s.activeConnections) },
           .ok newTaskId)

/-! ## Listener-process registry (ensureServerProcessStarted) -/

/-- Registry of per-mode listener process managers.  The source keys the map
by the mode string; only the three supported mode strings are ever stored
(the switch rejects every other mode before the store), so the registry is
embedded as one optional slot per mode.  `some b` is a stored process whose
`IsRunning` probe currently answers `b`; liveness is assumed stable within
one call. -/
structure Registry where
  hugepages : Option Bool := none
  tmpfs : Option Bool := none
  filesystem : Option Bool := none
deriving DecidableEq

/-- Slot of a mode string in the registry. -/
def regGet (r : Registry) (mode : String) : Option Bool :=
  if mode = modeHugepages then r.hugepages
  else if mode = modeTmpfs then r.tmpfs
  else if mode = modeFilesystem then r.filesystem
  else none

/-- Update of the slot of a mode string. -/
def regSet (r : Registry) (mode : String) (v : Option Bool) : Registry :=
  if mode = modeHugepages then { r with hugepages := v }
  else if mode = modeTmpfs then { r with tmpfs := v }
  else if mode = modeFilesystem then { r with filesystem := v }
  else r

/-- Embodiment of the loop that stops listeners of other modes: every stored
process of a mode other than `mode` whose liveness probe answers true is
stopped and removed; dead stored processes of other modes are left in place. -/
def stopOtherModes (r : Registry) (mode : String) : Registry :=
  { hugepages :=
      (if modeHugepages ≠ mode ∧ r.hugepages = some true then none else r.hugepages)
    tmpfs :=
      (if modeTmpfs ≠ mode ∧ r.tmpfs = some true then none else r.tmpfs)
    filesystem :=
      (if modeFilesystem ≠ mode ∧ r.filesystem = some true then none else r.filesystem) }

/-- Modes whose stored listener process is currently observably running. -/
def runningModes (r : Registry) : List String :=
  (if r.hugepages = some true then [modeHugepages] else []) ++
  (if r.tmpfs = some true then [modeTmpfs] else []) ++
  (if r.filesystem = some true then [modeFilesystem] else [])

/-- Continuation of `ensureServerProcessStarted` after the same-mode check:
stop other modes, resolve the listener parameters (rejecting unsupported
modes), validate, start the listener process (`startOk` is the oracle for
`StartServer` + `ProcessManager.Start`; a spawn is counted when the start
succeeds), store it, and apply the 2-second settle check (`settleAlive` is
the liveness probe after the settle delay).  Returns the new registry, the
result, and the number of process spawns performed. -/
def ensureServerCont (r : Registry) (config : TransferConfig) (dirs : Option ModeDirs)
    (startOk settleAlive : Bool) : Registry × Except String Unit × Nat :=
  let r1 := stopOtherModes r config.mode
  match listenerBaseDir config.mode dirs with
  | none => (r1, .error ("不支持的传输模式: " ++ config.mode), 0)
  | some baseDir =>
    let sc := listenerServerConfig config baseDir
    match ValidateConfig sc with
    | .error e => (r1, .error ("服务端配置验证失败: " ++ e), 0)
    | .ok _ =>
      if ¬startOk then (r1, .error ("启动服务端监听进程失败"), 0)
      else
        let r2 := regSet r1 config.mode (some settleAlive)
        if settleAlive then (r2, .ok (), 1)
        else (r2, .error ("服务端监听进程启动后立即退出"), 1)

/-- Embedding of `TransferService.ensureServerProcessStarted`: if a listener
for the same mode is already stored and observably running, do nothing;
a stored dead process of the same mode is discarded first; then the
continuation above. -/
def ensureServerProcessStarted (r : Registry) (config : TransferConfig)
    (dirs : Option ModeDirs) (startOk settleAlive : Bool) :
    Registry × Except String Unit × Nat :=
  match regGet r config.mode with
  | some true => (r, .ok (), 0)
  | some false => ensureServerCont (regSet r config.mode none) config dirs startOk settleAlive
  | none => ensureServerCont r config dirs startOk settleAlive

/-! ## Process supervisor Stop (src/internal/wrapper/process.go) -/

def stateStarting : String := "starting"
def stateRunning : String := "running"
def stateStopping : String := "stopping"
def stateStopped : String := "stopped"
def stateError : String := "error"

/-- Embedding of `wrapper.ProcessInfo` (command line and start time omitted;
times are nanosecond integers). -/
structure ProcessInfo where
  pid : Int := 0
  state : String := stateStopped
  exitTime : Option Int := none
  exitCode : Option Int := none
  error : String := ""
deriving DecidableEq

/-- Oracles for the OS interactions of one `Stop` call: whether the
interrupt signal is delivered, whether the immediate kill after a failed
signal succeeds, whether the process exits within the 10-second grace
window, the outcome of `Wait` (`none` = clean exit, `some ec` = error with
the optional exit code of an `ExitError`), the error text of a failed wait
or kill, whether the kill on the timeout path succeeds, and the wall-clock
time recorded as exit time. -/
structure StopEnv where
  signalOk : Bool
  killOk1 : Bool
  exitsWithinGrace : Bool
  waitErr : Option (Option Int)
  errText : String
  killOk2 : Bool
  tExit : Int
deriving DecidableEq

/-- Embedding of `ProcessManager.Stop`.  Input: whether a process handle is
held and the current `ProcessInfo`; output: the `ProcessInfo` after the
call, whether the handle is still held, and the returned error. -/
def Stop (hasProcess : Bool) (info : ProcessInfo) (env : StopEnv) :
    ProcessInfo × Bool × Except String Unit :=
  if ¬hasProcess ∨ info.state ≠ stateRunning then
    (info, hasProcess, .error ("进程未运行或已停止"))
  else
    let info1 := { info with state := stateStopping }
    if ¬env.signalOk ∧ ¬env.killOk1 then
      ({ info1 with state := stateError, error := env.errText }, hasProcess,
       .error ("强制终止进程失败: " ++ env.errText))
    else
      if env.exitsWithinGrace then
        let info2 := { info1 with exitTime := some env.tExit }
        match env.waitErr with
        | some ec =>
          ({ info2 with exitCode := ec, state := stateError, error := env.errText },
           false, .ok ())
        | none => ({ info2 with state := stateStopped }, false, .ok ())
      else
        if ¬env.killOk2 then
          ({ info1 with state := stateError, error := env.errText }, hasProcess,
           .error ("进程终止超时: " ++ env.errText))
        else
          ({ info1 with exitTime := some env.tExit, state := stateStopped }, false, .ok ())

/-! ## ListTransfers pagination (src/unnamed/part_003) -/

/-- Embedding of `TransferService.ListTransfers` over the append-only task
history.  `page` and `size` are Go `int` values (64-bit), so every
arithmetic step wraps two's-complement (`wrap64`), exactly as the source
computes `start := (page - 1) * size` and `end := start + size`.  Go's
`make` with a negative length and out-of-range slice expressions panic; a
panic is embedded as `none`.  On success the returned page and the
(unchanged) total are given. -/
def ListTransfers {α : Type} (history : List α) (page size : Int) :
    Option (List α × Int) :=
  let total : Int := history.length
  let start := wrap64 (wrap64 (page - 1) * size)
  let endIdx := wrap64 (start + size)
  if start ≥ total then some ([], total)
  else
    let endIdx := if endIdx > total then total else endIdx
    if wrap64 (endIdx - start) < 0 then none
    else if 0 ≤ start ∧ start ≤ endIdx then
      some (((history.drop start.toNat).take (wrap64 (endIdx - start)).toNat), total)
    else none

/-- Fresh service state with a concurrency budget (single-flight defaults on,
as in `NewTransferService`). -/
def c3State : ServiceState := { maxConcurrent := 5 }

/-- Concrete upload request used in the two-call scenarios. -/
def c3Req : TransferRequest :=
  { filename := "f.bin", mode := modeTmpfs, direction := directionPut }

/-- Service state in which the connection key for the put direction was
recorded at time 0. -/
def c3WinState : ServiceState :=
  { maxConcurrent := 5, activeConnections := [("default_put", 0)] }

/-- The transfer configuration `buildTransferConfig` produces for `c3Req`
under the sample settings with timestamp `t1`. -/
def c3BuiltCfg : TransferConfig :=
  { device := "mlx5_0", directory := "/dev/shm/dir", mode := modeTmpfs,
    direction := directionPut, filename := "f.bin", serverAddress := "10.0.0.1",
    chunkSize := 4096, logFile := "/var/log/rtrans/rtrans_put_t1.log",
    noHuge := false, mMan := true }

/-- Registry with a running tmpfs listener. -/
def c8Reg : Registry := { tmpfs := some true }

/-- Transfer configuration whose prepare requests a hugepages listener. -/
def c8Cfg : TransferConfig := { device := "mlx5_0", mode := modeHugepages }

/-- ProcessInfo of a running supervised process. -/
def c9RunningInfo : ProcessInfo := { pid := 42, state := stateRunning }

/-- Stop-call oracles in which both the interrupt signal and the immediate
force kill fail. -/
def c9FailEnv : StopEnv :=
  { signalOk := false, killOk1 := false, exitsWithinGrace := false,
    waitErr := none, errText := "os: process already released", killOk2 := false,
    tExit := 7 }

/-- Stop-call oracles of the ordinary graceful path: signal delivered and
the process exits within the grace window with a clean wait. -/
def c9GoodEnv : StopEnv :=
  { signalOk := true, killOk1 := true, exitsWithinGrace := true,
    waitErr := none, errText := "", killOk2 := true, tExit := 7 }

/-- Stop-call oracles of the timeout path with a successful forced kill. -/
def c9TimeoutEnv : StopEnv :=
  { signalOk := true, killOk1 := true, exitsWithinGrace := false,
    waitErr := none, errText := "", killOk2 := true, tExit := 9 }

/-! ## Helper lemmas -/

/-- Validation succeeds exactly on the closed sets of the specification. -/
theorem validateConfig_ok_characterization (config : TransferConfig) :
    exceptOk (ValidateConfig config) = true ↔
      (config.device ≠ "" ∧ config.directory ≠ "" ∧ config.logFile ≠ "" ∧
       (config.mode = modeHugepages ∨ config.mode = modeTmpfs ∨
        config.mode = modeFilesystem) ∧
       (config.direction = "" ∨
        ((config.direction = directionPut ∨ config.direction = directionGet) ∧
         config.serverAddress ≠ "" ∧ config.filename ≠ ""))) := by
  unfold ValidateConfig
  split_ifs <;> simp_all [exceptOk]

/-- The hand-off step always marks the task failed and returns an error. -/
theorem startTransferTask_fails (config : TransferConfig) (o1 o2 : Bool) :
    (startTransferTask config o1 o2).1 = statusFailed ∧
    exceptOk (startTransferTask config o1 o2).2 = false := by
  unfold startTransferTask
  split_ifs <;> simp [exceptOk]

/-- The listener-start continuation spawns at most one process. -/
theorem ensureServerCont_spawn_le_one (r : Registry) (config : TransferConfig)
    (dirs : Option ModeDirs) (a b : Bool) :
    (ensureServerCont r config dirs a b).2.2 ≤ 1 := by
  unfold ensureServerCont
  dsimp only
  split
  · simp
  · split_ifs <;> split <;> simp

/-- While the stored listener of the requested mode is observably running,
`ensureServerProcessStarted` does nothing. -/
theorem ensureServer_noop_of_running (r : Registry) (config : TransferConfig)
    (dirs : Option ModeDirs) (a b : Bool) (h : regGet r config.mode = some true) :
    ensureServerProcessStarted r config dirs a b = (r, .ok (), 0) := by
  unfold ensureServerProcessStarted
  simp only [h]

/-- A supported mode whose stored listener probe answers true appears in
the running-mode list. -/
theorem mem_runningModes_of_regGet (r : Registry) (m : String)
    (hm : m = modeHugepages ∨ m = modeTmpfs ∨ m = modeFilesystem)
    (h : regGet r m = some true) : m ∈ runningModes r := by
  rcases hm with h1 | h1 | h1 <;> subst h1 <;>
    simp [regGet, modeHugepages, modeTmpfs, modeFilesystem] at h <;>
    simp [runningModes, h]

/-- After stopping every other running listener and storing a freshly
started one for a supported mode, that mode is the only running one. -/
theorem runningModes_after_switch (r : Registry) (m : String)
    (hm : m = modeHugepages ∨ m = modeTmpfs ∨ m = modeFilesystem) :
    runningModes (regSet (stopOtherModes r m) m (some true)) = [m] := by
  rcases r with ⟨rh, rt, rf⟩
  rcases hm with h1 | h1 | h1 <;> subst h1 <;>
    simp [regSet, stopOtherModes, runningModes, modeHugepages, modeTmpfs, modeFilesystem]

/-- The listener-side configuration assembled for a supported mode with a
non-empty device and base directory passes validation. -/
theorem listener_validate_ok (config : TransferConfig) (baseDir : String)
    (hm : config.mode = modeHugepages ∨ config.mode = modeTmpfs ∨
          config.mode = modeFilesystem)
    (hdev : config.device ≠ "") (hdir : baseDir ≠ "") :
    ValidateConfig (listenerServerConfig config baseDir) = .ok () := by
  have h := (validateConfig_ok_characterization (listenerServerConfig config baseDir)).2 ?_
  · cases hv : ValidateConfig (listenerServerConfig config baseDir) with
    | ok u => cases u; rfl
    | error e => rw [hv] at h; simp [exceptOk] at h
  · refine ⟨hdev, hdir, ?_, hm, Or.inl rfl⟩
    intro hempty
    simp only [listenerServerConfig] at hempty
    have hlen := congrArg String.length hempty
    rw [String.length_append, String.length_append] at hlen
    simp at hlen
    exact absurd hlen.2 (by decide)

/-- A successfully built transfer configuration carries a put or get
direction (the direction switch of `buildTransferConfig` rejects everything
else). -/
theorem buildTransferConfig_ok_direction (req : TransferRequest)
    (sc : TransferSettings) (ts : String) (cfg : TransferConfig)
    (h : buildTransferConfig req sc ts = .ok cfg) :
    cfg.direction = directionPut ∨ cfg.direction = directionGet := by
  unfold buildTransferConfig at h
  split_ifs at h <;> simp_all <;> subst h <;> simp

/-! ## Claim theorems -/

/-- Claim C1, evaluation of the divergence: the argument lists actually
handed to the external executable disagree with the §4.3 mode-to-role flag
table in two cells.  The hugepages listener is invoked with both `--nohuge`
and `--mman` although the table requires neither, and the tmpfs transfer
side is invoked with `--nohuge` although the table requires only `--mman`;
the four remaining cells of the table agree with the built argument lists. -/
theorem flagTable_code_divergence :
    ((listenerCommandArgs ("mlx5_0") modeHugepages (some sampleDirs)).map argFlagPair
        = some (true, true) ∧ specListenerFlags modeHugepages = some (false, false))
    ∧ (builtTransferPair modeTmpfs directionPut = .ok (true, true)
        ∧ builtTransferPair modeTmpfs directionGet = .ok (true, true)
        ∧ specTransferFlags modeTmpfs = some (false, true))
    ∧ ((listenerCommandArgs ("mlx5_0") modeTmpfs (some sampleDirs)).map argFlagPair
        = some (true, true) ∧ specListenerFlags modeTmpfs = some (true, true))
    ∧ ((listenerCommandArgs ("mlx5_0") modeFilesystem (some sampleDirs)).map argFlagPair
        = some (true, false) ∧ specListenerFlags modeFilesystem = some (true, false))
    ∧ (builtTransferPair modeHugepages directionPut = .ok (true, true)
        ∧ builtTransferPair modeHugepages directionGet = .ok (true, true)
        ∧ specTransferFlags modeHugepages = some (true, true))
    ∧ (builtTransferPair modeFilesystem directionPut = .ok (false, false)
        ∧ builtTransferPair modeFilesystem directionGet = .ok (false, false)
        ∧ specTransferFlags modeFilesystem = some (false, false)) := by
  decide

/-- Claim C5: the configuration validator accepts a transfer configuration
if and only if device, directory and log-file are non-empty, the mode is one
of the three supported modes, and the direction is either empty (listener
role) or one of put/get with peer address and filename additionally present
(transfer role). -/
theorem validateConfig_accepts_iff (config : TransferConfig) :
    exceptOk (ValidateConfig config) = true ↔
      (config.device ≠ "" ∧ config.directory ≠ "" ∧ config.logFile ≠ "" ∧
       (config.mode = modeHugepages ∨ config.mode = modeTmpfs ∨
        config.mode = modeFilesystem) ∧
       (config.direction = "" ∨
        ((config.direction = directionPut ∨ config.direction = directionGet) ∧
         config.serverAddress ≠ "" ∧ config.filename ≠ ""))) :=
  validateConfig_ok_characterization config

/-- Claim C2: the hand-off step `startTransferTask` marks the task failed
and returns an error for every direction value — put/get with the
client-transfer rejection message, anything else with the
listener-unsupported message — and consequently `StartTransfer` always
returns an error and leaves the service state (active-task map, history,
connection-key map) unchanged. -/
theorem startTransfer_always_fails :
    (∀ (config : TransferConfig) (o1 o2 : Bool),
        (startTransferTask config o1 o2).1 = statusFailed ∧
        exceptOk (startTransferTask config o1 o2).2 = false)
    ∧ (∀ config : TransferConfig,
        (config.direction = directionPut ∨ config.direction = directionGet) →
        startTransferTask config true true = (statusFailed, .error errClientOnServer))
    ∧ (∀ config : TransferConfig,
        ¬(config.direction = directionPut ∨ config.direction = directionGet) →
        startTransferTask config true true = (statusFailed, .error errListenerUnsupported))
    ∧ (∀ (s : ServiceState) (req : TransferRequest) (serverConfig : TransferSettings)
        (now : Int) (ts id : String) (o1 o2 : Bool),
        exceptOk (StartTransfer s req serverConfig now ts id o1 o2).2 = false ∧
        (StartTransfer s req serverConfig now ts id o1 o2).1 = s) := by
  refine ⟨fun c o1 o2 => startTransferTask_fails c o1 o2, ?_, ?_, ?_⟩
  · intro c h
    unfold startTransferTask
    split_ifs <;> simp_all
  · intro c h
    unfold startTransferTask
    split_ifs <;> simp_all
  · intro s req sc now ts id o1 o2
    unfold StartTransfer
    split
    · exact ⟨rfl, rfl⟩
    split
    · exact ⟨rfl, rfl⟩
    split
    · exact ⟨rfl, rfl⟩
    rename_i cfg hbuild
    split
    · exact ⟨rfl, rfl⟩
    split
    · exact ⟨rfl, rfl⟩
    rename_i fst a heq
    have hf := (startTransferTask_fails cfg o1 o2).2
    rw [heq] at hf
    simp [exceptOk] at hf

/-- Claim C2 witness: concrete evaluations of the hand-off rejection for a
put direction, for an empty (listener) direction, and of a full
`StartTransfer` call that passes admission and validation yet fails. -/
theorem startTransfer_always_fails_witness :
    startTransferTask { direction := directionPut } true true
        = (statusFailed, .error errClientOnServer)
    ∧ startTransferTask { direction := "" } true true
        = (statusFailed, .error errListenerUnsupported)
    ∧ exceptOk (StartTransfer c3State c3Req sampleSettings 0 ("t0") ("task1") true true).2
        = false
    ∧ (StartTransfer c3State c3Req sampleSettings 0 ("t0") ("task1") true true).1 = c3State := by
  refine ⟨startTransfer_always_fails.2.1 _ (by decide),
          startTransfer_always_fails.2.2.1 _ (by decide),
          (startTransfer_always_fails.2.2.2 c3State c3Req sampleSettings 0 ("t0") ("task1")
            true true).1,
          (startTransfer_always_fails.2.2.2 c3State c3Req sampleSettings 0 ("t0") ("task1")
            true true).2⟩

/-- Claim C3 counterexample: with single-flight enabled, a first `start`
for the put direction at time 0 and a second one 1 second later (well
within the 10-second window) both fail with the hand-off error — the second
call is not rejected with the admission error, because the failing first
call never recorded the connection-key timestamp. -/
theorem singleFlight_second_call_not_admission :
    (StartTransfer c3State c3Req sampleSettings 0 ("t0") ("task1") true true).1 = c3State
    ∧ (StartTransfer c3State c3Req sampleSettings 0 ("t0") ("task1") true true).2
        = .error errClientOnServer
    ∧ (StartTransfer (StartTransfer c3State c3Req sampleSettings 0 ("t0") ("task1") true true).1
         c3Req sampleSettings 1000000000 ("t1") ("task2") true true).2
        = .error errClientOnServer
    ∧ errClientOnServer ≠ errReconnectRequired := by
  decide

/-- Claim C3 amended: the connection key is the fixed marker `default_`
plus the request direction only; when single-flight mode (with the
reconnect requirement) is enabled and the key's timestamp has been
recorded, a start within the 10-second window is rejected with the
admission error, and a start after the window passes admission (failing
instead with the hand-off error).  As stated the claim fails, because the
always-failing hand-off means `StartTransfer` itself never records the
timestamp. -/
theorem singleFlight_admission_window (s : ServiceState) (req : TransferRequest)
    (serverConfig : TransferSettings) (now t : Int) (ts id : String)
    (hs : s.singleTransfer = true) (hr : s.requireReconnect = true)
    (hc : (s.activeTasks.length : Int) < s.maxConcurrent)
    (hk : connLookup s.activeConnections (getConnectionKeyWithConfig req) = some t) :
    getConnectionKeyWithConfig req = "default_" ++ req.direction
    ∧ (∀ o1 o2 : Bool, now - t < 10 * 1000000000 →
        StartTransfer s req serverConfig now ts id o1 o2 = (s, .error errReconnectRequired))
    ∧ (10 * 1000000000 ≤ now - t →
        ∀ cfg : TransferConfig, buildTransferConfig req serverConfig ts = .ok cfg →
        ValidateConfig cfg = .ok () →
        StartTransfer s req serverConfig now ts id true true
          = (s, .error errClientOnServer)) := by
  refine ⟨rfl, ?_, ?_⟩
  · intro o1 o2 hwin
    have hact : isConnectionActive s.activeConnections (getConnectionKeyWithConfig req) now
        = true := by
      simp [isConnectionActive, hk]
      omega
    unfold StartTransfer
    rw [if_neg (by omega), if_pos ⟨hs, hr, hact⟩]
  · intro hwin cfg hb hv
    have hdir := buildTransferConfig_ok_direction req serverConfig ts cfg hb
    have hstt : startTransferTask cfg true true = (statusFailed, .error errClientOnServer) := by
      unfold startTransferTask
      split_ifs <;> simp_all
    unfold StartTransfer
    rw [if_neg (by omega), if_neg]
    · simp only [hb, hv, hstt]
    · intro hcontra
      rcases hcontra with ⟨h1, h2, h3⟩
      simp [isConnectionActive, hk] at h3
      omega

/-- Claim C3 amended, witness: with the put-direction key recorded at time
0, a start 5 seconds later is rejected with the admission error, while a
start 10 seconds later passes admission and fails with the hand-off error;
the key is the fixed marker plus the direction. -/
theorem singleFlight_admission_window_witness :
    getConnectionKeyWithConfig c3Req = "default_" ++ c3Req.direction
    ∧ StartTransfer c3WinState c3Req sampleSettings 5000000000 ("t0") ("task1") true true
        = (c3WinState, .error errReconnectRequired)
    ∧ StartTransfer c3WinState c3Req sampleSettings 10000000000 ("t1") ("task2") true true
        = (c3WinState, .error errClientOnServer) := by
  have h1 := singleFlight_admission_window c3WinState c3Req sampleSettings 5000000000 0
    ("t0") ("task1") (by decide) (by decide) (by decide) (by decide)
  have h2 := singleFlight_admission_window c3WinState c3Req sampleSettings 10000000000 0
    ("t1") ("task2") (by decide) (by decide) (by decide) (by decide)
  exact ⟨h1.1, h1.2.1 true true (by decide),
         h2.2.2 (by decide) c3BuiltCfg (by decide) (by decide)⟩

/-- Claim C4, evaluation of the divergence: with no stop signal pending and
the log file created at polling tick 2, the worker as written records the
failed status with the open error instead of polling until the file exists.
The wait loop performs exactly one existence check because the `break`
after the `select` statement is unconditional. -/
theorem logWait_single_poll_fails :
    monitorLogFileStart false (fun n => decide (2 ≤ n)) true
        = .failed ("打开日志文件失败")
    ∧ (fun n => decide (2 ≤ n)) 2 = true
    ∧ logWaitTicks false (fun n => decide (2 ≤ n)) = some 1 := by
  exact ⟨rfl, rfl, rfl⟩

/-- An integer already inside the int64 range is unchanged by the
two's-complement wrap. -/
theorem wrap64_eq_self (x : Int) (h1 : -(2 ^ 63) ≤ x) (h2 : x < 2 ^ 63) :
    wrap64 x = x := by
  unfold wrap64
  omega

/-- Claim C6: parsing the line `Transferred 1024 MB of 2048 MB (50.0%)`
yields 1024·1024·1024 bytes transferred out of 2048·1024·1024, percent
50.0, status in-progress; and the unit conversion applied to every parsed
progress value is power-of-1024 based and case-insensitive — B leaves the
value unchanged, KB multiplies by 1024, MB by 1024², GB by 1024³ (exactly,
whenever the int64 products do not overflow). -/
theorem parseLine_progress_and_units :
    ParseLine ("Transferred 1024 MB of 2048 MB (50.0%)")
        = .ok (some { status := statusInProgress, bytesTransferred := 1073741824,
                      totalBytes := 2147483648, progressPercent := 50, error := "" })
    ∧ (∀ (v : Int) (u : String), goToUpper u = "B" → convertToBytes v u = v)
    ∧ (∀ (v : Int) (u : String), goToUpper u = "KB" →
        -(2 ^ 63) ≤ v * 1024 → v * 1024 < 2 ^ 63 →
        convertToBytes v u = v * 1024)
    ∧ (∀ (v : Int) (u : String), goToUpper u = "MB" →
        -(2 ^ 63) ≤ v * 1024 * 1024 → v * 1024 * 1024 < 2 ^ 63 →
        convertToBytes v u = v * 1024 * 1024)
    ∧ (∀ (v : Int) (u : String), goToUpper u = "GB" →
        -(2 ^ 63) ≤ v * 1024 * 1024 * 1024 → v * 1024 * 1024 * 1024 < 2 ^ 63 →
        convertToBytes v u = v * 1024 * 1024 * 1024) := by
  refine ⟨?_, ?_, ?_, ?_, ?_⟩
  · unfold ParseLine
    rw [if_neg, if_neg]
    · have hpf : parseFloatQ ("50.0") = some ((50 : ℚ) + (0 : ℚ) / ((10 : ℚ) ^ (1 : Nat))) := by
        rw [parseFloatQ, show parseFloatParts ("50.0") = some (50, 0, 1) from by decide]
        norm_num
      simp only [show findProgressMatch (lowerList ("Transferred 1024 MB of 2048 MB (50.0%)"))
            = some ("1024", "mb", "2048", "mb", "50.0") from by decide,
        show parseInt64 ("1024") = some 1024 from by decide,
        show parseInt64 ("2048") = some 2048 from by decide,
        hpf,
        show convertToBytes 1024 ("mb") = 1073741824 from by decide,
        show convertToBytes 2048 ("mb") = 2147483648 from by decide]
      norm_num
    · rw [show completeRegexMatches ("Transferred 1024 MB of 2048 MB (50.0%)") = false from by
        decide]
      simp
    · rw [show errorRegexMatches ("Transferred 1024 MB of 2048 MB (50.0%)") = false from by
        decide]
      simp
  · intro v u h
    simp [convertToBytes, h]
  · intro v u h hlo hhi
    simp only [convertToBytes, h]
    norm_num
    exact wrap64_eq_self _ hlo hhi
  · intro v u h hlo hhi
    have hinner : wrap64 (v * 1024) = v * 1024 := by
      apply wrap64_eq_self <;> nlinarith
    simp only [convertToBytes, h]
    norm_num
    rw [hinner]
    exact wrap64_eq_self _ hlo hhi
  · intro v u h hlo hhi
    have h1 : wrap64 (v * 1024) = v * 1024 := by
      apply wrap64_eq_self <;> nlinarith
    have h2 : wrap64 (v * 1024 * 1024) = v * 1024 * 1024 := by
      apply wrap64_eq_self <;> nlinarith
    simp only [convertToBytes, h]
    norm_num
    rw [h1, h2]
    exact wrap64_eq_self _ hlo hhi

/-- Claim C6 witness: the conversion equations at concrete values and
lower-case units. -/
theorem parseLine_progress_and_units_witness :
    convertToBytes 7 ("b") = 7
    ∧ convertToBytes 7 ("kB") = 7 * 1024
    ∧ convertToBytes 7 ("mb") = 7 * 1024 * 1024
    ∧ convertToBytes 7 ("Gb") = 7 * 1024 * 1024 * 1024 := by
  refine ⟨parseLine_progress_and_units.2.1 7 ("b") (by decide),
          parseLine_progress_and_units.2.2.1 7 ("kB") (by decide) (by decide) (by decide),
          parseLine_progress_and_units.2.2.2.1 7 ("mb") (by decide) (by decide) (by decide),
          parseLine_progress_and_units.2.2.2.2 7 ("Gb") (by decide) (by decide) (by decide)⟩

/-- Claim C7: every line in which the error regex matches — any of error,
failed, failure, exception in any letter case — is classified as failed
with the whitespace-trimmed line as error text, taking priority over the
completion and progress classifications. -/
theorem parseLine_error_priority (line : String)
    (h : errorRegexMatches line = true) :
    ParseLine line = .ok (some { status := statusFailed, bytesTransferred := 0,
                                 totalBytes := 0, progressPercent := 0,
                                 error := trimSpace line }) := by
  simp [ParseLine, h]

/-- Claim C7 witness: a line that simultaneously matches the error, the
completion and the progress patterns is classified as failed with the
trimmed line as error text. -/
theorem parseLine_error_priority_witness :
    errorRegexMatches (" ERROR: transfer completed Transferred 1 B of 2 B (50.0%) ") = true
    ∧ completeRegexMatches (" ERROR: transfer completed Transferred 1 B of 2 B (50.0%) ") = true
    ∧ (findProgressMatch
        (lowerList (" ERROR: transfer completed Transferred 1 B of 2 B (50.0%) "))).isSome = true
    ∧ ParseLine (" ERROR: transfer completed Transferred 1 B of 2 B (50.0%) ")
        = .ok (some { status := statusFailed, bytesTransferred := 0, totalBytes := 0,
                      progressPercent := 0,
                      error := trimSpace (" ERROR: transfer completed Transferred 1 B of 2 B (50.0%) ") }) := by
  exact ⟨by decide, by decide, by decide,
         parseLine_error_priority (" ERROR: transfer completed Transferred 1 B of 2 B (50.0%) ")
           (by decide)⟩

/-- Claim C8: the listener registry keeps at most one active listener.  One
call spawns at most one process; a second call for the same mode while the
stored listener is still observably running performs no action and no
spawn; and a call for mode A while mode B is the (only) running listener,
with valid parameters and successful start/settle, succeeds and leaves
exactly mode A running. -/
theorem listener_registry_single_active :
    (∀ (r : Registry) (config : TransferConfig) (dirs : Option ModeDirs) (a b : Bool),
        (ensureServerProcessStarted r config dirs a b).2.2 ≤ 1)
    ∧ (∀ (r : Registry) (config : TransferConfig) (dirs : Option ModeDirs) (a b a2 b2 : Bool),
        regGet (ensureServerProcessStarted r config dirs a b).1 config.mode = some true →
        ensureServerProcessStarted (ensureServerProcessStarted r config dirs a b).1
            config dirs a2 b2
          = ((ensureServerProcessStarted r config dirs a b).1, .ok (), 0))
    ∧ (∀ (r : Registry) (config : TransferConfig) (dirs : Option ModeDirs)
          (bMode baseDir : String),
        runningModes r = [bMode] → bMode ≠ config.mode →
        (config.mode = modeHugepages ∨ config.mode = modeTmpfs ∨
         config.mode = modeFilesystem) →
        config.device ≠ "" →
        listenerBaseDir config.mode dirs = some baseDir → baseDir ≠ "" →
        (ensureServerProcessStarted r config dirs true true).2.1 = .ok ()
        ∧ runningModes (ensureServerProcessStarted r config dirs true true).1
            = [config.mode]) := by
  refine ⟨?_, ?_, ?_⟩
  · intro r config dirs a b
    unfold ensureServerProcessStarted
    split
    · simp
    · exact ensureServerCont_spawn_le_one _ config dirs a b
    · exact ensureServerCont_spawn_le_one _ config dirs a b
  · intro r config dirs a b a2 b2 h
    exact ensureServer_noop_of_running _ config dirs a2 b2 h
  · intro r config dirs bMode baseDir hB hne hm hdev hd hdne
    have hval := listener_validate_ok config baseDir hm hdev hdne
    have hnotrun : regGet r config.mode ≠ some true := by
      intro hcontra
      have hmem := mem_runningModes_of_regGet r config.mode hm hcontra
      rw [hB] at hmem
      simp at hmem
      exact hne hmem.symm
    have hcont : ∀ r2 : Registry,
        ensureServerCont r2 config dirs true true
          = (regSet (stopOtherModes r2 config.mode) config.mode (some true), .ok (), 1) := by
      intro r2
      unfold ensureServerCont
      simp only [hd, hval]
      simp
    have hmain : ∃ r0 : Registry,
        ensureServerProcessStarted r config dirs true true
          = (regSet (stopOtherModes r0 config.mode) config.mode (some true), .ok (), 1) := by
      unfold ensureServerProcessStarted
      rcases hr : regGet r config.mode with _ | b
      · exact ⟨r, hcont r⟩
      · cases b
        · exact ⟨regSet r config.mode none, hcont _⟩
        · exact absurd hr hnotrun
    obtain ⟨r0, heq⟩ := hmain
    rw [heq]
    exact ⟨rfl, runningModes_after_switch r0 config.mode hm⟩

/-- Claim C8 witness: with a running tmpfs listener stored, preparing the
hugepages mode stops the tmpfs listener, starts a hugepages listener with
one spawn, and leaves exactly the hugepages listener running; the immediate
second call for the same mode does nothing. -/
theorem listener_registry_single_active_witness :
    (ensureServerProcessStarted c8Reg c8Cfg (some sampleDirs) true true).2.1 = .ok ()
    ∧ runningModes (ensureServerProcessStarted c8Reg c8Cfg (some sampleDirs) true true).1
        = [modeHugepages]
    ∧ (ensureServerProcessStarted c8Reg c8Cfg (some sampleDirs) true true).2.2 ≤ 1
    ∧ ensureServerProcessStarted
        (ensureServerProcessStarted c8Reg c8Cfg (some sampleDirs) true true).1
        c8Cfg (some sampleDirs) true true
      = ((ensureServerProcessStarted c8Reg c8Cfg (some sampleDirs) true true).1, .ok (), 0) := by
  have h3 := listener_registry_single_active.2.2 c8Reg c8Cfg (some sampleDirs) modeTmpfs
    ("/dev/hugepages/dir") (by decide) (by decide) (by decide) (by decide) (by decide)
    (by decide)
  exact ⟨h3.1, h3.2,
         listener_registry_single_active.1 c8Reg c8Cfg (some sampleDirs) true true,
         listener_registry_single_active.2.1 c8Reg c8Cfg (some sampleDirs) true true true true
           (by decide)⟩

/-- Claim C9 counterexample: on a running process, when the interrupt
signal delivery fails and the immediate force kill also fails, `Stop`
returns (with an error) after setting the terminal error state but without
recording any exit time — the ProcessInfo is not fully finalized on this
return path. -/
theorem stop_kill_failure_no_exit_time :
    (Stop true c9RunningInfo c9FailEnv).1.exitTime = none
    ∧ (Stop true c9RunningInfo c9FailEnv).1.state = stateError
    ∧ exceptOk (Stop true c9RunningInfo c9FailEnv).2.2 = false := by
  decide

/-- Claim C9 amended: on every return path of `Stop` on a running process
the state is set to a terminal value (stopped or error); an exit time is
recorded exactly on the paths on which the process's termination is
actually observed — that is, unless the force kill itself fails (either
immediately after a failed signal, or on the 10-second timeout path), in
which case `Stop` returns an error with state error and no exit time. -/
theorem stop_finalization_amended (info : ProcessInfo) (env : StopEnv)
    (hrun : info.state = stateRunning) (hext : info.exitTime = none) :
    ((Stop true info env).1.state = stateStopped ∨ (Stop true info env).1.state = stateError)
    ∧ ((Stop true info env).1.exitTime).isSome
        = ((env.signalOk || env.killOk1) && (env.exitsWithinGrace || env.killOk2))
    ∧ (((env.signalOk || env.killOk1) && (env.exitsWithinGrace || env.killOk2)) = false →
        exceptOk (Stop true info env).2.2 = false) := by
  unfold Stop
  rw [if_neg (by simp [hrun])]
  rcases hsig : env.signalOk <;> rcases hk1 : env.killOk1 <;>
    rcases hgrace : env.exitsWithinGrace <;> rcases hk2 : env.killOk2 <;>
    rcases hw : env.waitErr <;>
    simp_all [exceptOk, stateStopped, stateError, stateRunning]

/-- Claim C9 amended, witness: the graceful path and the timeout path with
a successful forced kill both finalize (exit time recorded, terminal
state), while the double-kill-failure path sets the error state without an
exit time. -/
theorem stop_finalization_amended_witness :
    ((Stop true c9RunningInfo c9GoodEnv).1.state = stateStopped ∨
     (Stop true c9RunningInfo c9GoodEnv).1.state = stateError)
    ∧ ((Stop true c9RunningInfo c9GoodEnv).1.exitTime).isSome = true
    ∧ ((Stop true c9RunningInfo c9TimeoutEnv).1.exitTime).isSome = true
    ∧ ((Stop true c9RunningInfo c9FailEnv).1.exitTime).isSome = false := by
  have h1 := stop_finalization_amended c9RunningInfo c9GoodEnv (by decide) (by decide)
  have h2 := stop_finalization_amended c9RunningInfo c9TimeoutEnv (by decide) (by decide)
  have h3 := stop_finalization_amended c9RunningInfo c9FailEnv (by decide) (by decide)
  exact ⟨h1.1, h1.2.1, h2.2.1, h3.2.1⟩

/-- Claim C10 counterexample: Go int arithmetic wraps, so the claim's two
universal statements fail at int-representable extremes.  At page = 2⁵⁷+1,
size = 64 on a one-element history, (page−1)·size = 2⁶³ wraps to −2⁶³, the
`start ≥ total` guard does not fire and the slice expression panics
(`none`) — while the claim's page-≥-1 formula predicts the successful empty
page `some ([], 1)`.  Conversely at page = −2⁵⁷, size = 64 the product
wraps to the positive 2⁶³−64, so the early-return guard fires and a page is
returned with no panic — while the claim predicts a panic for every
page ≤ 0 with positive size and non-empty history. -/
theorem listTransfers_wrap_counterexample :
    ListTransfers ([1] : List Nat) (2 ^ 57 + 1) 64 = none
    ∧ (ListTransfers ([1] : List Nat) (2 ^ 57 + 1) 64
        ≠ some ((([1] : List Nat).drop (((2 : Int) ^ 57 + 1 - 1) * 64).toNat).take
                  (min 64 ((1 : Int) - ((2 : Int) ^ 57 + 1 - 1) * 64)).toNat, 1))
    ∧ ListTransfers ([1] : List Nat) (-(2 ^ 57)) 64 = some ([], 1) := by
  exact ⟨by decide, by decide, by decide⟩

/-- Claim C10 amended: with a positive page size and all the intermediate
Go int computations free of 64-bit overflow, `ListTransfers` panics
(embedded as `none`) for every page ≤ 0 on a non-empty history — the slice
lower bound (page−1)·size is negative and only `start ≥ total` is guarded —
while for every page ≥ 1 it returns the history slice starting at
(page−1)·size of length min(size, total−(page−1)·size), leaving the history
unchanged.  As stated the claim fails: `int` wrap-around at extreme pages
turns the would-be panic into a returned page and vice versa. -/
theorem listTransfers_pagination :
    (∀ (α : Type) (history : List α) (page size : Int),
        page ≤ 0 → 0 < size → history ≠ [] →
        -(2 ^ 63) < page → size < 2 ^ 63 → -(2 ^ 63) ≤ (page - 1) * size →
        ListTransfers history page size = none)
    ∧ (∀ (α : Type) (history : List α) (page size : Int),
        1 ≤ page → 0 < size →
        (history.length : Int) < 2 ^ 63 →
        (page - 1) * size < 2 ^ 63 → (page - 1) * size + size < 2 ^ 63 →
        ListTransfers history page size
          = some ((history.drop ((page - 1) * size).toNat).take
                    (min size ((history.length : Int) - (page - 1) * size)).toNat,
                  (history.length : Int))) := by
  constructor
  · intro α history page size hp hs hne hpin hsin hprod
    have htotal : 0 < (history.length : Int) := by
      have := List.length_pos.2 hne
      exact_mod_cast this
    have hstart : (page - 1) * size < 0 :=
      mul_neg_of_neg_of_pos (by omega) hs
    have h1 : wrap64 (page - 1) = page - 1 := wrap64_eq_self _ (by omega) (by omega)
    have hsizew : wrap64 size = size := wrap64_eq_self _ (by omega) (by omega)
    unfold ListTransfers
    dsimp only
    rw [h1]
    rw [wrap64_eq_self ((page - 1) * size) hprod (by omega)]
    rw [wrap64_eq_self ((page - 1) * size + size) (by omega) (by omega)]
    rw [if_neg (by omega : ¬((page - 1) * size ≥ (history.length : Int)))]
    rcases le_or_lt ((page - 1) * size + size) (history.length : Int) with hle | hlt
    · rw [if_neg (by omega : ¬((page - 1) * size + size > (history.length : Int)))]
      rw [show (page - 1) * size + size - (page - 1) * size = size from by omega, hsizew]
      rw [if_neg (by omega : ¬(size < 0))]
      rw [if_neg (by rintro ⟨ha, _⟩; omega)]
    · rw [if_pos (by omega : (page - 1) * size + size > (history.length : Int))]
      rw [wrap64_eq_self ((history.length : Int) - (page - 1) * size) (by omega) (by omega)]
      rw [if_neg (by omega : ¬((history.length : Int) - (page - 1) * size < 0))]
      rw [if_neg (by rintro ⟨ha, _⟩; omega)]
  · intro α history page size hp hs hlen hprodhi hsumhi
    have hstart : 0 ≤ (page - 1) * size := by
      have h1 : (0 : Int) ≤ page - 1 := by omega
      exact mul_nonneg h1 (le_of_lt hs)
    have hpagele : page - 1 ≤ (page - 1) * size :=
      le_mul_of_one_le_right (by omega) (by omega)
    have h1 : wrap64 (page - 1) = page - 1 := wrap64_eq_self _ (by omega) (by omega)
    unfold ListTransfers
    dsimp only
    rw [h1]
    rw [wrap64_eq_self ((page - 1) * size) (by omega) hprodhi]
    rw [wrap64_eq_self ((page - 1) * size + size) (by omega) hsumhi]
    rcases le_or_lt ((page - 1) * size + size) (history.length : Int) with hle | hlt
    · rw [if_neg (by omega : ¬((page - 1) * size ≥ (history.length : Int)))]
      rw [if_neg (by omega : ¬((page - 1) * size + size > (history.length : Int)))]
      rw [show (page - 1) * size + size - (page - 1) * size = size from by omega]
      rw [wrap64_eq_self size (by omega) (by omega)]
      rw [if_neg (by omega : ¬(size < 0))]
      rw [if_pos (⟨hstart, by omega⟩ :
            0 ≤ (page - 1) * size ∧ (page - 1) * size ≤ (page - 1) * size + size)]
      rw [min_eq_left (by omega : size ≤ (history.length : Int) - (page - 1) * size)]
    · by_cases hge : (page - 1) * size ≥ (history.length : Int)
      · rw [if_pos hge]
        rw [Int.toNat_of_nonpos
              (le_trans (min_le_right size ((history.length : Int) - (page - 1) * size))
                (by omega))]
        simp
      · rw [if_neg hge]
        rw [if_pos (by omega : (page - 1) * size + size > (history.length : Int))]
        rw [wrap64_eq_self ((history.length : Int) - (page - 1) * size) (by omega) (by omega)]
        rw [if_neg (by omega : ¬((history.length : Int) - (page - 1) * size < 0))]
        rw [if_pos (⟨hstart, by omega⟩ :
              0 ≤ (page - 1) * size ∧ (page - 1) * size ≤ (history.length : Int))]
        rw [min_eq_right (by omega : (history.length : Int) - (page - 1) * size ≤ size)]

/-- Claim C10 amended, witness: on a three-element history, page 0 with
size 2 panics, while page 2 with size 2 returns the last element; all
intermediate computations are far from the int64 bounds. -/
theorem listTransfers_pagination_witness :
    ListTransfers ([1, 2, 3] : List Nat) 0 2 = none
    ∧ ListTransfers ([1, 2, 3] : List Nat) 2 2 = some ([3], 3) := by
  constructor
  · exact listTransfers_pagination.1 Nat [1, 2, 3] 0 2 (by decide) (by decide) (by decide)
      (by decide) (by decide) (by decide)
  · rw [listTransfers_pagination.2 Nat [1, 2, 3] 2 2 (by decide) (by decide) (by decide)
      (by decide) (by decide)]
    decide

end RdmaBurst
